import Mathlib

/-!
Shallow embedding of the allocation orchestration layer of the 0chain
client SDK (`zboxcore/sdk/allocation.go`).

Pure data and control flow are translated directly.  External
collaborators (the local filesystem via `os.Stat`, the path helpers of
`zboxutil`, the base64/JSON auth-ticket codec and the per-operation
blobber network calls) are modelled as explicit inputs: an `Env` record
of oracle functions for the ambient collaborators, and per-call
parameters for the values a network phase returns (the consensus
`found` mask and quorum file reference of
`listReq.getFileConsensusFromBlobbers()`, and the `error` results of
`ProcessDelete`/`ProcessRename`/`ProcessCopy`).  Machine integers are
Nat with an explicit `% 2 ^ 32` where the Go source converts to
`uint32`; the `float32` consensus fields are modelled in the rationals.
-/

deriving instance DecidableEq for Except

namespace Zbox

/-- Result of `os.Stat`: `none` models a stat error, `some` carries the
parts of `os.FileInfo` that `allocation.go` reads. -/
structure FileInfo where
  size : Int
  isDir : Bool
  deriving DecidableEq

/-- `blockchain.StorageNode`, the per-blobber descriptor (only identity
matters to the orchestration logic). -/
structure StorageNode where
  ID : String
  Baseurl : String
  deriving DecidableEq

/-- `marker.AuthTicket` after base64/JSON decoding (the fields
`allocation.go` can read; only `FilePathHash` is consulted). -/
structure AuthTicket where
  FilePathHash : String
  ClientID : String
  ReEncryptionKey : String
  RefType : String
  Expiration : Int
  deriving DecidableEq

/-- `fileref.CommitMetaTxn`, carried through meta projections verbatim. -/
structure CommitMetaTxn where
  RefID : String
  TxnID : String
  deriving DecidableEq

/-- The quorum-selected file reference returned by
`listReq.getFileConsensusFromBlobbers()` (the fields
`allocation.go` projects).  The Go field `Type` is spelled `Type'`. -/
structure FileRef where
  Type' : String
  Name : String
  Path : String
  LookupHash : String
  ActualFileHash : String
  MimeType : String
  ActualFileSize : Int
  EncryptedKey : String
  CommitMetaTxns : List CommitMetaTxn
  deriving DecidableEq

/-- `sdk.ConsolidatedFileMeta`; the Go field `Type` is spelled `Type'`. -/
structure ConsolidatedFileMeta where
  Name : String
  Type' : String
  Path : String
  LookupHash : String
  Hash : String
  MimeType : String
  Size : Int
  EncryptedKey : String
  CommitMetaTxns : List CommitMetaTxn
  deriving DecidableEq

/-- `sdk.Allocation` restricted to the fields the verified operations
read: identity, erasure parameters, the blobber list and the two
lifecycle flags. -/
structure Allocation where
  ID : String
  Tx : String
  DataShards : Nat
  ParityShards : Nat
  Blobbers : List StorageNode
  initialized : Bool
  underRepair : Bool
  deriving DecidableEq

/-- The sentinel / coded errors of `allocation.go` (`noBLOBBERS`,
`notInitialized`, `underRepair`, the `common.NewError` codes and the
`fmt.Errorf` messages), abstracted to a sum type. -/
inductive Err where
  | noBlobbers
  | notInitialized
  | underRepair
  | invalidPath (msg : String)
  | authTicketDecodeError (msg : String)
  | localFileError
  | localPathNotDir (path : String)
  | localFileExists (path : String)
  | fileNotFound
  | noRepairRequired
  | listRequestFailed
  | fileMetaError
  | fileStatsRequestFailed
  deriving DecidableEq

/-- `sdk.UploadFileMeta`. -/
structure UploadFileMeta where
  Name : String
  Path : String
  Size : Int
  ThumbnailSize : Int
  deriving DecidableEq

/-- `sdk.UploadRequest` as populated by `uploadOrUpdateFile` (the
callback and channel plumbing is outside the embedding). -/
structure UploadRequest where
  remotefilepath : String
  thumbnailpath : String
  filepath : String
  filemeta : UploadFileMeta
  remaining : Int
  thumbRemaining : Int
  isUpdate : Bool
  isRepair : Bool
  isEncrypted : Bool
  connectionID : String
  datashards : Nat
  parityshards : Nat
  uploadMask : Nat
  consensusThresh : ℚ
  fullconsensus : ℚ
  deriving DecidableEq

/-- `sdk.DownloadRequest` as populated by `downloadFile` /
`downloadFromAuthTicket`. -/
structure DownloadRequest where
  allocationID : String
  allocationTx : String
  localpath : String
  remotefilepath : String
  remotefilepathhash : String
  authTicket : Option AuthTicket
  blobbers : List StorageNode
  downloadMask : Nat
  datashards : Nat
  parityshards : Nat
  numBlocks : Int
  consensusThresh : ℚ
  fullconsensus : ℚ
  contentMode : String
  deriving DecidableEq

/-- `sdk.ListRequest` as populated by the list / file-meta / stats
operations. -/
structure ListRequest where
  allocationID : String
  allocationTx : String
  blobbers : List StorageNode
  consensusThresh : ℚ
  fullconsensus : ℚ
  remotefilepath : String
  remotefilepathhash : String
  authToken : Option AuthTicket
  deriving DecidableEq

/-- `sdk.DeleteRequest` as populated by `DeleteFile`. -/
structure DeleteRequest where
  blobbers : List StorageNode
  allocationID : String
  allocationTx : String
  consensusThresh : ℚ
  fullconsensus : ℚ
  remotefilepath : String
  deleteMask : Nat
  listMask : Nat
  connectionID : String
  deriving DecidableEq

/-- `sdk.RenameRequest` as populated by `RenameObject`. -/
structure RenameRequest where
  blobbers : List StorageNode
  allocationID : String
  allocationTx : String
  newName : String
  consensusThresh : ℚ
  fullconsensus : ℚ
  remotefilepath : String
  renameMask : Nat
  connectionID : String
  deriving DecidableEq

/-- `sdk.CopyRequest` as populated by `CopyObject`. -/
structure CopyRequest where
  blobbers : List StorageNode
  allocationID : String
  allocationTx : String
  destPath : String
  consensusThresh : ℚ
  fullconsensus : ℚ
  remotefilepath : String
  copyMask : Nat
  connectionID : String
  deriving DecidableEq

/-- `sdk.ShareRequest` as populated by `GetAuthTicket`. -/
structure ShareRequest where
  allocationID : String
  blobbers : List StorageNode
  remotefilepath : String
  remotefilename : String
  refType : String
  deriving DecidableEq

/-- `sdk.CommitMetaRequest` as populated by `CommitMetaTransaction`. -/
structure CommitMetaRequest where
  CrudType : String
  MetaData : Option ConsolidatedFileMeta
  authToken : String
  deriving DecidableEq

/-- A network call issued by one of the synchronous two-phase
operations; used to record that an operation reached (or did not
reach) its blobber-facing phase. -/
inductive NetAction where
  | processDelete (req : DeleteRequest)
  | processRename (req : RenameRequest)
  | processCopy (req : CopyRequest)
  deriving DecidableEq

/-- Ambient collaborators of `allocation.go`: the package-global
`sdkInitialized` flag and `numBlockDownloads`, the `zboxutil` path
helpers, `filepath.Split`, `os.Stat` and `zboxutil.NewConnectionId`. -/
structure Env where
  sdkInitialized : Bool
  numBlockDownloads : Int
  remoteClean : String → String
  isRemoteAbs : String → Bool
  getFullRemotePath : String → String → String
  splitPath : String → String × String
  statFile : String → Option FileInfo
  newConnectionId : String

/-- `fileref.DIRECTORY`. -/
def DIRECTORY : String := "d"

/-- `fileref.FILE`. -/
def FILE : String := "f"

/-- `sdk.DOWNLOAD_CONTENT_FULL`. -/
def DOWNLOAD_CONTENT_FULL : String := "full"

/-- `sdk.DOWNLOAD_CONTENT_THUMB`. -/
def DOWNLOAD_CONTENT_THUMB : String := "thumb"

/-- `Allocation.isInitialized`: `a.initialized && sdkInitialized`. -/
def isInitialized (sdkInit : Bool) (a : Allocation) : Bool :=
  a.initialized && sdkInit

/-- `strings.TrimRight(s, "/")`. -/
def trimRightSlashes (s : String) : String :=
  ⟨(s.data.reverse.dropWhile (fun c => c == '/')).reverse⟩

/-- `bits.TrailingZeros32`: index of the least set bit of a 32-bit
value, `32` when the value is zero. -/
def trailingZeros32 (x : Nat) : Nat :=
  (((List.range 32).findIdx? fun i => x.testBit i).getD 32)

/-- The repair-mask complement of `allocation.go` line 308:
`^found & full` on `uint32` values. -/
def complementMask (full found : Nat) : Nat :=
  (found ^^^ (2 ^ 32 - 1)) &&& full

/-- `Allocation.uploadOrUpdateFile`.  `found` and `fileRef` are the
values `listReq.getFileConsensusFromBlobbers()` returns when the
repair branch queries the blobbers; the result pairs the outcome
(`ok` = the request handed to the upload queue) with the
post-call allocation state. -/
def uploadOrUpdateFile (env : Env) (a : Allocation) (localpath remotepath : String)
    (isUpdate : Bool) (thumbnailpath : String) (encryption : Bool) (isRepair : Bool)
    (found : Nat) (fileRef : Option FileRef) :
    Except Err UploadRequest × Allocation :=
  if isInitialized env.sdkInitialized a = false then
    (Except.error Err.notInitialized, a)
  else if a.underRepair = true then
    (Except.error Err.underRepair, a)
  else
    match env.statFile localpath with
    | none => (Except.error Err.localFileError, a)
    | some fileInfo =>
      let thumb :=
        if 0 < thumbnailpath.length then
          match env.statFile thumbnailpath with
          | none => ((0 : Int), "")
          | some tInfo => (tInfo.size, thumbnailpath)
        else ((0 : Int), thumbnailpath)
      let remotepathC := env.remoteClean remotepath
      if env.isRemoteAbs remotepathC = false then
        (Except.error (Err.invalidPath "Path should be valid and absolute"), a)
      else
        let remotepathF := env.getFullRemotePath localpath remotepathC
        let fileName := (env.splitPath remotepathF).2
        let uploadReq : UploadRequest :=
          { remotefilepath := remotepathF
            thumbnailpath := thumb.2
            filepath := localpath
            filemeta :=
              { Name := fileName
                Path := remotepathF
                Size := fileInfo.size
                ThumbnailSize := thumb.1 }
            remaining := fileInfo.size
            thumbRemaining := thumb.1
            isUpdate := isUpdate
            isRepair := isRepair
            isEncrypted := encryption
            connectionID := env.newConnectionId
            datashards := a.DataShards
            parityshards := a.ParityShards
            uploadMask := ((1 <<< a.Blobbers.length) - 1) % 2 ^ 32
            consensusThresh :=
              ((a.DataShards : ℚ) * 100) / (((a.DataShards + a.ParityShards : ℕ)) : ℚ)
            fullconsensus := (((a.DataShards + a.ParityShards : ℕ)) : ℚ) }
        if isRepair then
          match fileRef with
          | none => (Except.error Err.fileNotFound, a)
          | some _ =>
            if found = uploadReq.uploadMask then
              (Except.error Err.noRepairRequired, a)
            else
              let newMask := complementMask uploadReq.uploadMask found
              (Except.ok
                { uploadReq with
                    uploadMask := newMask
                    fullconsensus :=
                      uploadReq.fullconsensus - (trailingZeros32 newMask : ℚ) },
               { a with underRepair := true })
        else
          (Except.ok uploadReq, a)

/-- `Allocation.UploadFile`. -/
def UploadFile (env : Env) (a : Allocation) (localpath remotepath : String) :
    Except Err UploadRequest × Allocation :=
  uploadOrUpdateFile env a localpath remotepath false "" false false 0 none

/-- `Allocation.UpdateFile`. -/
def UpdateFile (env : Env) (a : Allocation) (localpath remotepath : String) :
    Except Err UploadRequest × Allocation :=
  uploadOrUpdateFile env a localpath remotepath true "" false false 0 none

/-- `Allocation.RepairFile`; `found` and `fileRef` are the list-consensus
phase results. -/
def RepairFile (env : Env) (a : Allocation) (localpath remotepath : String)
    (found : Nat) (fileRef : Option FileRef) :
    Except Err UploadRequest × Allocation :=
  uploadOrUpdateFile env a localpath remotepath false "" false true found fileRef

/-- Tail of `Allocation.downloadFile` after the local-path handling:
the blobber-count guard and the construction of the download request. -/
def downloadFileBuild (env : Env) (a : Allocation)
    (localPath remotePath contentMode : String) : Except Err DownloadRequest :=
  if a.Blobbers.length ≤ 1 then Except.error Err.noBlobbers
  else
    Except.ok
      { allocationID := a.ID
        allocationTx := a.Tx
        localpath := localPath
        remotefilepath := remotePath
        remotefilepathhash := ""
        authTicket := none
        blobbers := a.Blobbers
        downloadMask := ((1 <<< a.Blobbers.length) - 1) % 2 ^ 32
        datashards := a.DataShards
        parityshards := a.ParityShards
        numBlocks := env.numBlockDownloads
        consensusThresh :=
          ((a.DataShards : ℚ) * 100) / (((a.DataShards + a.ParityShards : ℕ)) : ℚ)
        fullconsensus := (((a.DataShards + a.ParityShards : ℕ)) : ℚ)
        contentMode := contentMode }

/-- `Allocation.downloadFile`; `ok` means the request was handed to the
download queue. -/
def downloadFile (env : Env) (a : Allocation)
    (localPath remotePath contentMode : String) : Except Err DownloadRequest :=
  if isInitialized env.sdkInitialized a = false then Except.error Err.notInitialized
  else if a.underRepair = true then Except.error Err.underRepair
  else
    match env.statFile localPath with
    | some stat =>
      if stat.isDir = false then Except.error (Err.localPathNotDir localPath)
      else
        let lp := trimRightSlashes localPath
        let rFile := (env.splitPath remotePath).2
        let lp2 := lp ++ "/" ++ rFile
        match env.statFile lp2 with
        | some _ => Except.error (Err.localFileExists lp2)
        | none => downloadFileBuild env a lp2 remotePath contentMode
    | none => downloadFileBuild env a localPath remotePath contentMode

/-- `Allocation.DownloadFile`. -/
def DownloadFile (env : Env) (a : Allocation) (localPath remotePath : String) :
    Except Err DownloadRequest :=
  downloadFile env a localPath remotePath DOWNLOAD_CONTENT_FULL

/-- `Allocation.DownloadThumbnail`. -/
def DownloadThumbnail (env : Env) (a : Allocation) (localPath remotePath : String) :
    Except Err DownloadRequest :=
  downloadFile env a localPath remotePath DOWNLOAD_CONTENT_THUMB

/-- Tail of `Allocation.downloadFromAuthTicket` after the local-path
handling: the blobber-count guard and the request construction. -/
def downloadFromAuthTicketBuild (env : Env) (a : Allocation) (localPath : String)
    (tkt : AuthTicket) (remoteLookupHash contentMode : String) :
    Except Err DownloadRequest :=
  if a.Blobbers.length ≤ 1 then Except.error Err.noBlobbers
  else
    Except.ok
      { allocationID := a.ID
        allocationTx := a.Tx
        localpath := localPath
        remotefilepath := ""
        remotefilepathhash := remoteLookupHash
        authTicket := some tkt
        blobbers := a.Blobbers
        downloadMask := ((1 <<< a.Blobbers.length) - 1) % 2 ^ 32
        datashards := a.DataShards
        parityshards := a.ParityShards
        numBlocks := env.numBlockDownloads
        consensusThresh :=
          ((a.DataShards : ℚ) * 100) / (((a.DataShards + a.ParityShards : ℕ)) : ℚ)
        fullconsensus := (((a.DataShards + a.ParityShards : ℕ)) : ℚ)
        contentMode := contentMode }

/-- `Allocation.downloadFromAuthTicket`; `decodedTicket` is the result
of the base64/JSON decode of the ticket string. -/
def downloadFromAuthTicket (env : Env) (a : Allocation) (localPath : String)
    (decodedTicket : Except String AuthTicket)
    (remoteLookupHash remoteFilename contentMode : String) :
    Except Err DownloadRequest :=
  if isInitialized env.sdkInitialized a = false then Except.error Err.notInitialized
  else if a.underRepair = true then Except.error Err.underRepair
  else
    match decodedTicket with
    | Except.error msg => Except.error (Err.authTicketDecodeError msg)
    | Except.ok tkt =>
      match env.statFile localPath with
      | some stat =>
        if stat.isDir = false then Except.error (Err.localPathNotDir localPath)
        else
          let lp := trimRightSlashes localPath
          let rFile := (env.splitPath remoteFilename).2
          let lp2 := lp ++ "/" ++ rFile
          match env.statFile lp2 with
          | some _ => Except.error (Err.localFileExists lp2)
          | none => downloadFromAuthTicketBuild env a lp2 tkt remoteLookupHash contentMode
      | none => downloadFromAuthTicketBuild env a localPath tkt remoteLookupHash contentMode

/-- `Allocation.DownloadFromAuthTicket`. -/
def DownloadFromAuthTicket (env : Env) (a : Allocation) (localPath : String)
    (decodedTicket : Except String AuthTicket)
    (remoteLookupHash remoteFilename : String) : Except Err DownloadRequest :=
  downloadFromAuthTicket env a localPath decodedTicket remoteLookupHash remoteFilename
    DOWNLOAD_CONTENT_FULL

/-- `Allocation.DownloadThumbnailFromAuthTicket`. -/
def DownloadThumbnailFromAuthTicket (env : Env) (a : Allocation) (localPath : String)
    (decodedTicket : Except String AuthTicket)
    (remoteLookupHash remoteFilename : String) : Except Err DownloadRequest :=
  downloadFromAuthTicket env a localPath decodedTicket remoteLookupHash remoteFilename
    DOWNLOAD_CONTENT_THUMB

/-- `Allocation.ListDir`; `ok` means the list request reached
`GetListFromBlobbers` carrying the returned request. -/
def ListDir (env : Env) (a : Allocation) (path : String) : Except Err ListRequest :=
  if isInitialized env.sdkInitialized a = false then Except.error Err.notInitialized
  else if path.length = 0 then Except.error (Err.invalidPath "Invalid path for the list")
  else
    let pathC := env.remoteClean path
    if env.isRemoteAbs pathC = false then
      Except.error (Err.invalidPath "Path should be valid and absolute")
    else
      Except.ok
        { allocationID := a.ID
          allocationTx := a.Tx
          blobbers := a.Blobbers
          consensusThresh :=
            ((a.DataShards : ℚ) * 100) / (((a.DataShards + a.ParityShards : ℕ)) : ℚ)
          fullconsensus := (((a.DataShards + a.ParityShards : ℕ)) : ℚ)
          remotefilepath := pathC
          remotefilepathhash := ""
          authToken := none }

/-- `Allocation.ListDirFromAuthTicket`; `decodedTicket` is the result
of the base64/JSON decode of the ticket string, `ok` means the list
request reached `GetListFromBlobbers`. -/
def ListDirFromAuthTicket (env : Env) (a : Allocation)
    (decodedTicket : Except String AuthTicket) (lookupHash : String) :
    Except Err ListRequest :=
  if isInitialized env.sdkInitialized a = false then Except.error Err.notInitialized
  else
    match decodedTicket with
    | Except.error msg => Except.error (Err.authTicketDecodeError msg)
    | Except.ok tkt =>
      if tkt.FilePathHash.length = 0 ∨ lookupHash.length = 0 then
        Except.error (Err.invalidPath "Invalid path for the list")
      else
        Except.ok
          { allocationID := a.ID
            allocationTx := a.Tx
            blobbers := a.Blobbers
            consensusThresh :=
              ((a.DataShards : ℚ) * 100) / (((a.DataShards + a.ParityShards : ℕ)) : ℚ)
            fullconsensus := (((a.DataShards + a.ParityShards : ℕ)) : ℚ)
            remotefilepath := ""
            remotefilepathhash := lookupHash
            authToken := some tkt }

/-- `Allocation.GetFileMeta`; `ref` is the quorum reference returned by
`getFileConsensusFromBlobbers`.  The first component is the list
request the operation always builds and sends; the second is the
returned result. -/
def GetFileMeta (a : Allocation) (path : String) (ref : Option FileRef) :
    ListRequest × Except Err ConsolidatedFileMeta :=
  let listReq : ListRequest :=
    { allocationID := a.ID
      allocationTx := a.Tx
      blobbers := a.Blobbers
      consensusThresh :=
        ((a.DataShards : ℚ) * 100) / (((a.DataShards + a.ParityShards : ℕ)) : ℚ)
      fullconsensus := (((a.DataShards + a.ParityShards : ℕ)) : ℚ)
      remotefilepath := path
      remotefilepathhash := ""
      authToken := none }
  match ref with
  | some r =>
    (listReq,
     Except.ok
       { Type' := r.Type'
         Name := r.Name
         Hash := r.ActualFileHash
         LookupHash := r.LookupHash
         MimeType := r.MimeType
         Path := r.Path
         Size := r.ActualFileSize
         EncryptedKey := r.EncryptedKey
         CommitMetaTxns := r.CommitMetaTxns })
  | none => (listReq, Except.error Err.fileMetaError)

/-- `Allocation.GetFileMetaFromAuthTicket`; `decodedTicket` is the
decode result, `ref` the quorum reference.  The first component is the
list request when one was built (`none` when validation failed first);
the Go source leaves `EncryptedKey` at its zero value here. -/
def GetFileMetaFromAuthTicket (a : Allocation)
    (decodedTicket : Except String AuthTicket) (lookupHash : String)
    (ref : Option FileRef) :
    Option ListRequest × Except Err ConsolidatedFileMeta :=
  match decodedTicket with
  | Except.error msg => (none, Except.error (Err.authTicketDecodeError msg))
  | Except.ok tkt =>
    if tkt.FilePathHash.length = 0 ∨ lookupHash.length = 0 then
      (none, Except.error (Err.invalidPath "Invalid path for the list"))
    else
      let listReq : ListRequest :=
        { allocationID := a.ID
          allocationTx := a.Tx
          blobbers := a.Blobbers
          consensusThresh :=
            ((a.DataShards : ℚ) * 100) / (((a.DataShards + a.ParityShards : ℕ)) : ℚ)
          fullconsensus := (((a.DataShards + a.ParityShards : ℕ)) : ℚ)
          remotefilepath := ""
          remotefilepathhash := lookupHash
          authToken := some tkt }
      match ref with
      | some r =>
        (some listReq,
         Except.ok
           { Type' := r.Type'
             Name := r.Name
             Hash := r.ActualFileHash
             LookupHash := r.LookupHash
             MimeType := r.MimeType
             Path := r.Path
             Size := r.ActualFileSize
             EncryptedKey := ""
             CommitMetaTxns := r.CommitMetaTxns })
      | none => (some listReq, Except.error Err.fileMetaError)

/-- `Allocation.GetFileStats`; `ok` means the stats request reached
`getFileStatsFromBlobbers` carrying the returned request. -/
def GetFileStats (env : Env) (a : Allocation) (path : String) : Except Err ListRequest :=
  if isInitialized env.sdkInitialized a = false then Except.error Err.notInitialized
  else if path.length = 0 then Except.error (Err.invalidPath "Invalid path for the list")
  else
    let pathC := env.remoteClean path
    if env.isRemoteAbs pathC = false then
      Except.error (Err.invalidPath "Path should be valid and absolute")
    else
      Except.ok
        { allocationID := a.ID
          allocationTx := a.Tx
          blobbers := a.Blobbers
          consensusThresh :=
            ((a.DataShards : ℚ) * 100) / (((a.DataShards + a.ParityShards : ℕ)) : ℚ)
          fullconsensus := (((a.DataShards + a.ParityShards : ℕ)) : ℚ)
          remotefilepath := pathC
          remotefilepathhash := ""
          authToken := none }

/-- `Allocation.DeleteFile`; `deleteOutcome` is the error result of
`req.ProcessDelete()`.  The second component lists the network actions
issued (empty when validation rejects before the network phase). -/
def DeleteFile (env : Env) (a : Allocation) (deleteOutcome : Option Err)
    (path : String) : Option Err × List NetAction :=
  if isInitialized env.sdkInitialized a = false then (some Err.notInitialized, [])
  else if a.underRepair = true then (some Err.underRepair, [])
  else if path.length = 0 then (some (Err.invalidPath "Invalid path for the list"), [])
  else
    let pathC := env.remoteClean path
    if env.isRemoteAbs pathC = false then
      (some (Err.invalidPath "Path should be valid and absolute"), [])
    else
      let req : DeleteRequest :=
        { blobbers := a.Blobbers
          allocationID := a.ID
          allocationTx := a.Tx
          consensusThresh :=
            ((a.DataShards : ℚ) * 100) / (((a.DataShards + a.ParityShards : ℕ)) : ℚ)
          fullconsensus := (((a.DataShards + a.ParityShards : ℕ)) : ℚ)
          remotefilepath := pathC
          deleteMask := 0
          listMask := 0
          connectionID := env.newConnectionId }
      (deleteOutcome, [NetAction.processDelete req])

/-- `Allocation.RenameObject`; `renameOutcome` is the error result of
`req.ProcessRename()`. -/
def RenameObject (env : Env) (a : Allocation) (renameOutcome : Option Err)
    (path destName : String) : Option Err × List NetAction :=
  if isInitialized env.sdkInitialized a = false then (some Err.notInitialized, [])
  else if a.underRepair = true then (some Err.underRepair, [])
  else if path.length = 0 then (some (Err.invalidPath "Invalid path for the list"), [])
  else
    let pathC := env.remoteClean path
    if env.isRemoteAbs pathC = false then
      (some (Err.invalidPath "Path should be valid and absolute"), [])
    else
      let req : RenameRequest :=
        { blobbers := a.Blobbers
          allocationID := a.ID
          allocationTx := a.Tx
          newName := destName
          consensusThresh :=
            ((a.DataShards : ℚ) * 100) / (((a.DataShards + a.ParityShards : ℕ)) : ℚ)
          fullconsensus := (((a.DataShards + a.ParityShards : ℕ)) : ℚ)
          remotefilepath := pathC
          renameMask := 0
          connectionID := env.newConnectionId }
      (renameOutcome, [NetAction.processRename req])

/-- `Allocation.CopyObject`; `copyOutcome` is the error result of
`req.ProcessCopy()`. -/
def CopyObject (env : Env) (a : Allocation) (copyOutcome : Option Err)
    (path destPath : String) : Option Err × List NetAction :=
  if isInitialized env.sdkInitialized a = false then (some Err.notInitialized, [])
  else if a.underRepair = true then (some Err.underRepair, [])
  else if path.length = 0 ∨ destPath.length = 0 then
    (some (Err.invalidPath "Invalid path for copy"), [])
  else
    let pathC := env.remoteClean path
    if env.isRemoteAbs pathC = false then
      (some (Err.invalidPath "Path should be valid and absolute"), [])
    else
      let req : CopyRequest :=
        { blobbers := a.Blobbers
          allocationID := a.ID
          allocationTx := a.Tx
          destPath := destPath
          consensusThresh :=
            ((a.DataShards : ℚ) * 100) / (((a.DataShards + a.ParityShards : ℕ)) : ℚ)
          fullconsensus := (((a.DataShards + a.ParityShards : ℕ)) : ℚ)
          remotefilepath := pathC
          copyMask := 0
          connectionID := env.newConnectionId }
      (copyOutcome, [NetAction.processCopy req])

/-- `Allocation.MoveObject`: `CopyObject` first, then `DeleteFile` on
the source only when the copy succeeded. -/
def MoveObject (env : Env) (a : Allocation) (copyOutcome deleteOutcome : Option Err)
    (path destPath : String) : Option Err × List NetAction :=
  let c := CopyObject env a copyOutcome path destPath
  match c.1 with
  | some e => (some e, c.2)
  | none =>
    let d := DeleteFile env a deleteOutcome path
    (d.1, c.2 ++ d.2)

/-- `Allocation.GetAuthTicket`; `ok` means the share request reached
the signing collaborator carrying the returned request. -/
def GetAuthTicket (env : Env) (a : Allocation)
    (path filename referenceType : String)
    (_refereeClientID _refereeEncryptionPublicKey : String) :
    Except Err ShareRequest :=
  if isInitialized env.sdkInitialized a = false then Except.error Err.notInitialized
  else if path.length = 0 then Except.error (Err.invalidPath "Invalid path for the list")
  else
    let pathC := env.remoteClean path
    if env.isRemoteAbs pathC = false then
      Except.error (Err.invalidPath "Path should be valid and absolute")
    else
      Except.ok
        { allocationID := a.ID
          blobbers := a.Blobbers
          remotefilepath := pathC
          remotefilename := filename
          refType := if referenceType = DIRECTORY then DIRECTORY else FILE }

/-- `Allocation.GetAuthTicketForShare`. -/
def GetAuthTicketForShare (env : Env) (a : Allocation) (path filename referenceType refereeClientID : String) :
    Except Err ShareRequest :=
  GetAuthTicket env a path filename referenceType refereeClientID ""

/-- `Allocation.CommitMetaTransaction`; `decodedTicket` and `ref` feed
the meta lookup used when `fileMeta` is absent, `ok` means the commit
request was handed to `processCommitMetaRequest`. -/
def CommitMetaTransaction (env : Env) (a : Allocation)
    (path crudOperation authTicket lookupHash : String)
    (decodedTicket : Except String AuthTicket) (ref : Option FileRef)
    (fileMeta : Option ConsolidatedFileMeta) : Except Err CommitMetaRequest :=
  if isInitialized env.sdkInitialized a = false then Except.error Err.notInitialized
  else if a.underRepair = true then Except.error Err.underRepair
  else
    let metaRes : Except Err (Option ConsolidatedFileMeta) :=
      match fileMeta with
      | some m => Except.ok (some m)
      | none =>
        if 0 < path.length then
          match (GetFileMeta a path ref).2 with
          | Except.ok m => Except.ok (some m)
          | Except.error e => Except.error e
        else if 0 < authTicket.length then
          match (GetFileMetaFromAuthTicket a decodedTicket lookupHash ref).2 with
          | Except.ok m => Except.ok (some m)
          | Except.error e => Except.error e
        else Except.ok none
    match metaRes with
    | Except.error e => Except.error e
    | Except.ok m =>
      Except.ok { CrudType := crudOperation, MetaData := m, authToken := authTicket }

/-! Concrete sample data used to evaluate the embedded operations. -/

/-- A sample blobber descriptor. -/
def node (i : String) : StorageNode := { ID := i, Baseurl := i }

/-- Four blobbers, matching a D=2, P=2 allocation. -/
def blobbers4 : List StorageNode := [node "b1", node "b2", node "b3", node "b4"]

/-- An initialized 4-blobber allocation with D=2, P=2. -/
def alloc4 : Allocation :=
  { ID := "alloc4", Tx := "tx4", DataShards := 2, ParityShards := 2,
    Blobbers := blobbers4, initialized := true, underRepair := false }

/-- An initialized single-blobber allocation. -/
def allocOne : Allocation :=
  { ID := "alloc1", Tx := "tx1", DataShards := 1, ParityShards := 0,
    Blobbers := [node "b1"], initialized := true, underRepair := false }

/-- A 4-blobber allocation whose initialization never completed. -/
def uninitAlloc : Allocation :=
  { ID := "allocU", Tx := "txU", DataShards := 2, ParityShards := 2,
    Blobbers := blobbers4, initialized := false, underRepair := false }

/-- A sample quorum file reference. -/
def r0 : FileRef :=
  { Type' := "f", Name := "f.txt", Path := "/f.txt", LookupHash := "lh0",
    ActualFileHash := "hash0", MimeType := "text/plain", ActualFileSize := 42,
    EncryptedKey := "ek0", CommitMetaTxns := [{ RefID := "ref0", TxnID := "txn0" }] }

/-- A decoded auth ticket whose `file_path_hash` is empty but whose
other fields are well-formed. -/
def tktEmptyHash : AuthTicket :=
  { FilePathHash := "", ClientID := "client0", ReEncryptionKey := "rk",
    RefType := "f", Expiration := 10 }

/-- A decoded auth ticket with a non-empty `file_path_hash`. -/
def tktOk : AuthTicket :=
  { FilePathHash := "ph0", ClientID := "client0", ReEncryptionKey := "rk",
    RefType := "f", Expiration := 10 }

/-- A local file info record (a plain file, not a directory). -/
def fi0 : FileInfo := { size := 100, isDir := false }

/-- A concrete environment: the SDK is initialized, only the local path
`loc` exists, and the path helpers behave trivially. -/
def cEnv : Env :=
  { sdkInitialized := true
    numBlockDownloads := 10
    remoteClean := fun p => p
    isRemoteAbs := fun _ => true
    getFullRemotePath := fun _ r => r
    splitPath := fun p => ("", p)
    statFile := fun p => if p = "loc" then some fi0 else none
    newConnectionId := "conn0" }

/-- The concrete environment with an empty local filesystem. -/
def cEnvNoFS : Env := { cEnv with statFile := fun _ => none }

/-! Theorems. -/

/-- Claim C8: for every full mask and every found mask that is a subset
of it, the repair complement `^found & full` of `allocation.go` line
308 is an involution: complementing twice restores the found mask. -/
theorem complementMask_involutive (full found : Nat) (hsub : found &&& full = found) :
    complementMask full (complementMask full found) = found := by
  have hbit : ∀ i, found.testBit i = (found.testBit i && full.testBit i) := by
    intro i
    conv_lhs => rw [← hsub]
    simp [Nat.testBit_land]
  apply Nat.eq_of_testBit_eq
  intro i
  have h := hbit i
  simp only [complementMask, Nat.testBit_land, Nat.testBit_xor]
  rcases Bool.eq_false_or_eq_true (found.testBit i) with hf | hf <;>
    rcases Bool.eq_false_or_eq_true (full.testBit i) with hu | hu <;>
      rcases Bool.eq_false_or_eq_true (((2 ^ 32 - 1 : Nat)).testBit i) with hm | hm <;>
        simp_all

/-- Witness for C8 at full mask `0b1111` and found mask `0b0101`. -/
theorem complementMask_involutive_app :
    (5 : Nat) &&& 15 = 5 ∧ complementMask 15 (complementMask 15 5) = 5 :=
  ⟨by decide, complementMask_involutive 15 5 (by decide)⟩

/-- Claim C9: the `ConsolidatedFileMeta` returned by `GetFileMeta` for
a quorum-selected reference carries the reference's actual file hash,
actual file size and mime type unchanged. -/
theorem GetFileMeta_preserves_ref_fields (a : Allocation) (path : String) (r : FileRef) :
    ((GetFileMeta a path (some r)).2).map (fun m => (m.Hash, m.Size, m.MimeType))
      = Except.ok (r.ActualFileHash, r.ActualFileSize, r.MimeType) := rfl

/-- Claim C1 (failing input): a repair upload on the 4-blobber
allocation where the list-consensus phase found mask `0b0101` with a
quorum object.  The narrowed upload mask is `0b1010` as the claim
states, but `fullconsensus` becomes `4 - TrailingZeros32(0b1010) = 3`,
not the `4 - popcount(0b0101) = 2` the claim requires. -/
theorem repair_fullconsensus_trailing_zeros :
    ((uploadOrUpdateFile cEnv alloc4 "loc" "/f" false "" false true 5 (some r0)).1).map
      (fun req => (req.uploadMask, req.fullconsensus)) = Except.ok (10, 3) := by
  have h1 : isInitialized cEnv.sdkInitialized alloc4 = true := by decide
  have h2 : alloc4.underRepair = false := by decide
  have h3 : cEnv.statFile "loc" = some fi0 := by decide
  have h4 : cEnv.isRemoteAbs (cEnv.remoteClean "/f") = true := by decide
  have hmask : ((1 <<< alloc4.Blobbers.length) - 1) % 2 ^ 32 = 15 := by decide
  have hcomp : complementMask 15 5 = 10 := by decide
  have htz : trailingZeros32 10 = 1 := by decide
  have hDP : alloc4.DataShards + alloc4.ParityShards = 4 := by decide
  simp only [uploadOrUpdateFile, h1, h2, h3, h4, hmask, hcomp, htz, hDP]
  norm_num
  simp [Except.map]

/-- `CopyObject` never issues a delete network action. -/
theorem CopyObject_no_delete (env : Env) (a : Allocation) (copyOutcome : Option Err)
    (path destPath : String) (req : DeleteRequest) :
    NetAction.processDelete req ∉ (CopyObject env a copyOutcome path destPath).2 := by
  intro hmem
  simp only [CopyObject] at hmem
  repeat' split at hmem
  all_goals simp_all

/-- Claim C10: `MoveObject` runs `CopyObject` first; a copy error is
returned as-is and no delete is issued, and on copy success the result
is that of `DeleteFile` on the source path. -/
theorem MoveObject_copy_before_delete (env : Env) (a : Allocation)
    (copyOutcome deleteOutcome : Option Err) (path destPath : String) :
    (∀ e, (CopyObject env a copyOutcome path destPath).1 = some e →
        MoveObject env a copyOutcome deleteOutcome path destPath
            = (some e, (CopyObject env a copyOutcome path destPath).2)
          ∧ ∀ req, NetAction.processDelete req ∉
              (MoveObject env a copyOutcome deleteOutcome path destPath).2)
    ∧ ((CopyObject env a copyOutcome path destPath).1 = none →
        (MoveObject env a copyOutcome deleteOutcome path destPath).1
          = (DeleteFile env a deleteOutcome path).1) := by
  constructor
  · intro e he
    refine ⟨?_, ?_⟩
    · simp only [MoveObject]
      rw [he]
    · intro req
      simp only [MoveObject]
      rw [he]
      exact CopyObject_no_delete env a copyOutcome path destPath req
  · intro he
    simp only [MoveObject]
    rw [he]

/-- Witness for C10: a failing copy on the 4-blobber allocation
propagates the copy error out of `MoveObject`. -/
theorem MoveObject_copy_before_delete_app :
    MoveObject cEnv alloc4 (some Err.listRequestFailed) none "/src" "/dst"
      = (some Err.listRequestFailed,
          (CopyObject cEnv alloc4 (some Err.listRequestFailed) "/src" "/dst").2) :=
  ((MoveObject_copy_before_delete cEnv alloc4 (some Err.listRequestFailed) none
      "/src" "/dst").1 Err.listRequestFailed (by decide)).1

/-- Claim C6: for a repair upload that passes local validation and
whose list-consensus phase returns a quorum object, the operation
fails with the no-repair-needed error iff the found mask equals the
all-ones mask for the current blobber count. -/
theorem repair_noRepairNeeded_iff (env : Env) (a : Allocation)
    (localpath remotepath thumbnailpath : String) (isUpdate encryption : Bool)
    (found : Nat) (r : FileRef) (fi : FileInfo)
    (hinit : isInitialized env.sdkInitialized a = true)
    (hrep : a.underRepair = false)
    (hstat : env.statFile localpath = some fi)
    (habs : env.isRemoteAbs (env.remoteClean remotepath) = true) :
    ((uploadOrUpdateFile env a localpath remotepath isUpdate thumbnailpath encryption true
        found (some r)).1 = Except.error Err.noRepairRequired)
      ↔ found = ((1 <<< a.Blobbers.length) - 1) % 2 ^ 32 := by
  simp only [uploadOrUpdateFile, hinit, hrep, hstat, habs]
  by_cases h : found = ((1 <<< a.Blobbers.length) - 1) % 4294967296 <;> simp [h]

/-- Witness for C6: on the 4-blobber allocation a repair with found
mask `0b1111` is exactly the no-repair-needed case. -/
theorem repair_noRepairNeeded_iff_app :
    ((uploadOrUpdateFile cEnv alloc4 "loc" "/f" false "" false true 15 (some r0)).1
        = Except.error Err.noRepairRequired)
      ↔ 15 = ((1 <<< alloc4.Blobbers.length) - 1) % 2 ^ 32 :=
  repair_noRepairNeeded_iff cEnv alloc4 "loc" "/f" "" false false 15 r0 fi0
    (by decide) (by decide) (by decide) (by decide)

/-- Claim C7: a repair upload whose list-consensus phase finds no
quorum object returns the not-found error and leaves the allocation
(and in particular its `underRepair` flag) unchanged; no request is
enqueued. -/
theorem repair_missing_notFound (env : Env) (a : Allocation)
    (localpath remotepath thumbnailpath : String) (isUpdate encryption : Bool)
    (found : Nat) (fi : FileInfo)
    (hinit : isInitialized env.sdkInitialized a = true)
    (hrep : a.underRepair = false)
    (hstat : env.statFile localpath = some fi)
    (habs : env.isRemoteAbs (env.remoteClean remotepath) = true) :
    uploadOrUpdateFile env a localpath remotepath isUpdate thumbnailpath encryption true
        found none = (Except.error Err.fileNotFound, a) := by
  simp [uploadOrUpdateFile, hinit, hrep, hstat, habs]

/-- Witness for C7 on the 4-blobber allocation. -/
theorem repair_missing_notFound_app :
    uploadOrUpdateFile cEnv alloc4 "loc" "/f" false "" false true 5 none
      = (Except.error Err.fileNotFound, alloc4) :=
  repair_missing_notFound cEnv alloc4 "loc" "/f" "" false false 5 fi0
    (by decide) (by decide) (by decide) (by decide)

/-- Claim C5 (amended): when the allocation is not initialized, every
operation except `GetFileMeta` and `GetFileMetaFromAuthTicket` returns
the fixed not-initialized error with no network action or state
change. -/
theorem ops_reject_uninitialized (env : Env) (a : Allocation)
    (h : isInitialized env.sdkInitialized a = false) :
    (∀ localpath remotepath isUpdate thumbnailpath encryption isRepair found fileRef,
        uploadOrUpdateFile env a localpath remotepath isUpdate thumbnailpath encryption
            isRepair found fileRef = (Except.error Err.notInitialized, a))
    ∧ (∀ localPath remotePath contentMode,
        downloadFile env a localPath remotePath contentMode
          = Except.error Err.notInitialized)
    ∧ (∀ localPath decodedTicket remoteLookupHash remoteFilename contentMode,
        downloadFromAuthTicket env a localPath decodedTicket remoteLookupHash
            remoteFilename contentMode = Except.error Err.notInitialized)
    ∧ (∀ path, ListDir env a path = Except.error Err.notInitialized)
    ∧ (∀ decodedTicket lookupHash,
        ListDirFromAuthTicket env a decodedTicket lookupHash
          = Except.error Err.notInitialized)
    ∧ (∀ path, GetFileStats env a path = Except.error Err.notInitialized)
    ∧ (∀ deleteOutcome path,
        DeleteFile env a deleteOutcome path = (some Err.notInitialized, []))
    ∧ (∀ renameOutcome path destName,
        RenameObject env a renameOutcome path destName = (some Err.notInitialized, []))
    ∧ (∀ copyOutcome path destPath,
        CopyObject env a copyOutcome path destPath = (some Err.notInitialized, []))
    ∧ (∀ copyOutcome deleteOutcome path destPath,
        MoveObject env a copyOutcome deleteOutcome path destPath
          = (some Err.notInitialized, []))
    ∧ (∀ path filename referenceType rcid rkey,
        GetAuthTicket env a path filename referenceType rcid rkey
          = Except.error Err.notInitialized)
    ∧ (∀ path crudOperation authTicket lookupHash decodedTicket ref fileMeta,
        CommitMetaTransaction env a path crudOperation authTicket lookupHash
            decodedTicket ref fileMeta = Except.error Err.notInitialized) := by
  refine ⟨?_, ?_, ?_, ?_, ?_, ?_, ?_, ?_, ?_, ?_, ?_, ?_⟩ <;>
    intros <;>
      simp [uploadOrUpdateFile, downloadFile, downloadFromAuthTicket, ListDir,
        ListDirFromAuthTicket, GetFileStats, DeleteFile, RenameObject, CopyObject,
        MoveObject, GetAuthTicket, CommitMetaTransaction, h]

/-- Witness for (amended) C5: `ListDir` on the uninitialized
allocation. -/
theorem ops_reject_uninitialized_app :
    ListDir cEnv uninitAlloc "/x" = Except.error Err.notInitialized :=
  (ops_reject_uninitialized cEnv uninitAlloc (by decide)).2.2.2.1 "/x"

/-- Counterexample to C5 as stated: `GetFileMeta` performs no
initialization check; on an uninitialized allocation it still builds
the list request and returns the projected metadata instead of the
fixed not-initialized error. -/
theorem GetFileMeta_skips_init_check :
    uninitAlloc.initialized = false
      ∧ ((GetFileMeta uninitAlloc "/f" (some r0)).2).isOk = true := by
  exact ⟨by decide, rfl⟩

/-- Claim C3 (amended): a decoded auth ticket with an empty
`file_path_hash` is rejected by `ListDirFromAuthTicket` (once the
initialization guard passes) and by `GetFileMetaFromAuthTicket`,
regardless of the other ticket fields; the download-from-ticket
operations perform no such check. -/
theorem emptyPathHash_rejected_list_meta (env : Env) (a : Allocation)
    (lookupHash : String) (tkt : AuthTicket) (ref : Option FileRef)
    (hempty : tkt.FilePathHash.length = 0)
    (hinit : isInitialized env.sdkInitialized a = true) :
    ListDirFromAuthTicket env a (Except.ok tkt) lookupHash
        = Except.error (Err.invalidPath "Invalid path for the list")
      ∧ GetFileMetaFromAuthTicket a (Except.ok tkt) lookupHash ref
        = (none, Except.error (Err.invalidPath "Invalid path for the list")) := by
  constructor
  · simp [ListDirFromAuthTicket, hinit, hempty]
  · simp [GetFileMetaFromAuthTicket, hempty]

/-- Witness for (amended) C3 on the empty-hash ticket. -/
theorem emptyPathHash_rejected_list_meta_app :
    ListDirFromAuthTicket cEnv alloc4 (Except.ok tktEmptyHash) "lh"
        = Except.error (Err.invalidPath "Invalid path for the list")
      ∧ GetFileMetaFromAuthTicket alloc4 (Except.ok tktEmptyHash) "lh" (some r0)
        = (none, Except.error (Err.invalidPath "Invalid path for the list")) :=
  emptyPathHash_rejected_list_meta cEnv alloc4 "lh" tktEmptyHash (some r0)
    (by decide) (by decide)

/-- Counterexample to C3 as stated: `DownloadFromAuthTicket` accepts a
ticket whose `file_path_hash` is empty (other fields well-formed) and
proceeds to enqueue the download request. -/
theorem downloadFromAuthTicket_accepts_empty_hash :
    tktEmptyHash.FilePathHash = ""
      ∧ (DownloadFromAuthTicket cEnv alloc4 "/dl" (Except.ok tktEmptyHash) "lh"
          "file.txt").isOk = true := by
  exact ⟨rfl, rfl⟩

/-- Claim C4 (amended): with at most one blobber, the download
operations (plain and ticket-based, file and thumbnail) fail with the
no-blobbers error before any request is built, provided the guards
before the blobber-count check pass; the list operations perform no
blobber-count check. -/
theorem download_requires_blobbers (env : Env) (a : Allocation)
    (localPath remotePath remoteLookupHash remoteFilename : String) (tkt : AuthTicket)
    (hinit : isInitialized env.sdkInitialized a = true)
    (hrep : a.underRepair = false)
    (hn : a.Blobbers.length ≤ 1)
    (hdir : ∀ st, env.statFile localPath = some st → st.isDir = true)
    (hdest1 : env.statFile
        (trimRightSlashes localPath ++ "/" ++ (env.splitPath remotePath).2) = none)
    (hdest2 : env.statFile
        (trimRightSlashes localPath ++ "/" ++ (env.splitPath remoteFilename).2) = none) :
    DownloadFile env a localPath remotePath = Except.error Err.noBlobbers
      ∧ DownloadThumbnail env a localPath remotePath = Except.error Err.noBlobbers
      ∧ DownloadFromAuthTicket env a localPath (Except.ok tkt) remoteLookupHash
          remoteFilename = Except.error Err.noBlobbers
      ∧ DownloadThumbnailFromAuthTicket env a localPath (Except.ok tkt) remoteLookupHash
          remoteFilename = Except.error Err.noBlobbers := by
  have hcore : ∀ contentMode, downloadFile env a localPath remotePath contentMode
      = Except.error Err.noBlobbers := by
    intro contentMode
    simp only [downloadFile, hinit, hrep]
    rcases hstat : env.statFile localPath with _ | st
    · simp [hstat, downloadFileBuild, hn]
    · have hd := hdir st hstat
      simp [hstat, hd, hdest1, downloadFileBuild, hn]
  have hcoreT : ∀ contentMode, downloadFromAuthTicket env a localPath (Except.ok tkt)
      remoteLookupHash remoteFilename contentMode = Except.error Err.noBlobbers := by
    intro contentMode
    simp only [downloadFromAuthTicket, hinit, hrep]
    rcases hstat : env.statFile localPath with _ | st
    · simp [hstat, downloadFromAuthTicketBuild, hn]
    · have hd := hdir st hstat
      simp [hstat, hd, hdest2, downloadFromAuthTicketBuild, hn]
  exact ⟨hcore _, hcore _, hcoreT _, hcoreT _⟩

/-- Witness for (amended) C4 on the single-blobber allocation with an
empty local filesystem. -/
theorem download_requires_blobbers_app :
    DownloadFile cEnvNoFS allocOne "/dl" "/r" = Except.error Err.noBlobbers
      ∧ DownloadThumbnail cEnvNoFS allocOne "/dl" "/r" = Except.error Err.noBlobbers
      ∧ DownloadFromAuthTicket cEnvNoFS allocOne "/dl" (Except.ok tktOk) "lh" "fn"
          = Except.error Err.noBlobbers
      ∧ DownloadThumbnailFromAuthTicket cEnvNoFS allocOne "/dl" (Except.ok tktOk)
          "lh" "fn" = Except.error Err.noBlobbers :=
  download_requires_blobbers cEnvNoFS allocOne "/dl" "/r" "lh" "fn" tktOk
    (by decide) (by decide) (by decide)
    (fun st h => by simp [cEnvNoFS, cEnv] at h)
    (by decide) (by decide)

/-- Counterexample to C4 as stated: `ListDir` performs no blobber-count
check; on a single-blobber allocation it proceeds to query the
blobbers instead of failing with the no-blobbers error. -/
theorem ListDir_single_blobber_proceeds :
    allocOne.Blobbers.length = 1 ∧ (ListDir cEnv allocOne "/x").isOk = true := by
  exact ⟨by decide, rfl⟩

/-- The `consensusThresh` expression shared by the request
constructors, restated in the claim's `100 * D / (D + P)` form. -/
theorem consensus_expr_eq (D P : ℕ) :
    ((D : ℚ) * 100) / (((D + P : ℕ)) : ℚ) = 100 * (D : ℚ) / ((D : ℚ) + (P : ℚ)) := by
  push_cast
  ring

/-- The `fullconsensus` expression shared by the request constructors
equals `D + P` over ℚ. -/
theorem fullconsensus_expr_eq (D P : ℕ) :
    (((D + P : ℕ)) : ℚ) = (D : ℚ) + (P : ℚ) := by
  push_cast
  ring

/-- Claim C2: every request built by the upload (non-repair), download,
list, file-meta, stats, delete, rename and copy operations carries
`consensusThresh = 100 * D / (D + P)` and `fullconsensus = D + P`. -/
theorem requests_carry_consensus_params (env : Env) (a : Allocation)
    (hD : 1 ≤ a.DataShards) :
    (∀ localpath remotepath isUpdate thumbnailpath encryption found fileRef req a',
        uploadOrUpdateFile env a localpath remotepath isUpdate thumbnailpath encryption
            false found fileRef = (Except.ok req, a') →
          req.consensusThresh
              = 100 * (a.DataShards : ℚ) / ((a.DataShards : ℚ) + (a.ParityShards : ℚ))
            ∧ req.fullconsensus = (a.DataShards : ℚ) + (a.ParityShards : ℚ))
    ∧ (∀ localPath remotePath contentMode req,
        downloadFile env a localPath remotePath contentMode = Except.ok req →
          req.consensusThresh
              = 100 * (a.DataShards : ℚ) / ((a.DataShards : ℚ) + (a.ParityShards : ℚ))
            ∧ req.fullconsensus = (a.DataShards : ℚ) + (a.ParityShards : ℚ))
    ∧ (∀ localPath decodedTicket remoteLookupHash remoteFilename contentMode req,
        downloadFromAuthTicket env a localPath decodedTicket remoteLookupHash
            remoteFilename contentMode = Except.ok req →
          req.consensusThresh
              = 100 * (a.DataShards : ℚ) / ((a.DataShards : ℚ) + (a.ParityShards : ℚ))
            ∧ req.fullconsensus = (a.DataShards : ℚ) + (a.ParityShards : ℚ))
    ∧ (∀ path req, ListDir env a path = Except.ok req →
        req.consensusThresh
            = 100 * (a.DataShards : ℚ) / ((a.DataShards : ℚ) + (a.ParityShards : ℚ))
          ∧ req.fullconsensus = (a.DataShards : ℚ) + (a.ParityShards : ℚ))
    ∧ (∀ decodedTicket lookupHash req,
        ListDirFromAuthTicket env a decodedTicket lookupHash = Except.ok req →
          req.consensusThresh
              = 100 * (a.DataShards : ℚ) / ((a.DataShards : ℚ) + (a.ParityShards : ℚ))
            ∧ req.fullconsensus = (a.DataShards : ℚ) + (a.ParityShards : ℚ))
    ∧ (∀ path ref,
        (GetFileMeta a path ref).1.consensusThresh
            = 100 * (a.DataShards : ℚ) / ((a.DataShards : ℚ) + (a.ParityShards : ℚ))
          ∧ (GetFileMeta a path ref).1.fullconsensus
            = (a.DataShards : ℚ) + (a.ParityShards : ℚ))
    ∧ (∀ decodedTicket lookupHash ref req,
        (GetFileMetaFromAuthTicket a decodedTicket lookupHash ref).1 = some req →
          req.consensusThresh
              = 100 * (a.DataShards : ℚ) / ((a.DataShards : ℚ) + (a.ParityShards : ℚ))
            ∧ req.fullconsensus = (a.DataShards : ℚ) + (a.ParityShards : ℚ))
    ∧ (∀ path req, GetFileStats env a path = Except.ok req →
        req.consensusThresh
            = 100 * (a.DataShards : ℚ) / ((a.DataShards : ℚ) + (a.ParityShards : ℚ))
          ∧ req.fullconsensus = (a.DataShards : ℚ) + (a.ParityShards : ℚ))
    ∧ (∀ deleteOutcome path req,
        NetAction.processDelete req ∈ (DeleteFile env a deleteOutcome path).2 →
          req.consensusThresh
              = 100 * (a.DataShards : ℚ) / ((a.DataShards : ℚ) + (a.ParityShards : ℚ))
            ∧ req.fullconsensus = (a.DataShards : ℚ) + (a.ParityShards : ℚ))
    ∧ (∀ renameOutcome path destName req,
        NetAction.processRename req ∈ (RenameObject env a renameOutcome path destName).2 →
          req.consensusThresh
              = 100 * (a.DataShards : ℚ) / ((a.DataShards : ℚ) + (a.ParityShards : ℚ))
            ∧ req.fullconsensus = (a.DataShards : ℚ) + (a.ParityShards : ℚ))
    ∧ (∀ copyOutcome path destPath req,
        NetAction.processCopy req ∈ (CopyObject env a copyOutcome path destPath).2 →
          req.consensusThresh
              = 100 * (a.DataShards : ℚ) / ((a.DataShards : ℚ) + (a.ParityShards : ℚ))
            ∧ req.fullconsensus = (a.DataShards : ℚ) + (a.ParityShards : ℚ)) := by
  refine ⟨?_, ?_, ?_, ?_, ?_, ?_, ?_, ?_, ?_, ?_, ?_⟩
  · intro localpath remotepath isUpdate thumbnailpath encryption found fileRef req a' hreq
    simp only [uploadOrUpdateFile] at hreq
    repeat' split at hreq
    all_goals rw [Prod.mk.injEq] at hreq
    all_goals obtain ⟨h1, h2⟩ := hreq
    all_goals first
      | exact Except.noConfusion h1
      | (injection h1 with h1; subst h1;
         exact ⟨consensus_expr_eq _ _, fullconsensus_expr_eq _ _⟩)
      | simp_all
  · intro localPath remotePath contentMode req hreq
    simp only [downloadFile, downloadFileBuild] at hreq
    repeat' split at hreq
    all_goals first
      | exact Except.noConfusion hreq
      | (injection hreq with h1; subst h1;
         exact ⟨consensus_expr_eq _ _, fullconsensus_expr_eq _ _⟩)
      | simp_all
  · intro localPath decodedTicket remoteLookupHash remoteFilename contentMode req hreq
    simp only [downloadFromAuthTicket, downloadFromAuthTicketBuild] at hreq
    repeat' split at hreq
    all_goals first
      | exact Except.noConfusion hreq
      | (injection hreq with h1; subst h1;
         exact ⟨consensus_expr_eq _ _, fullconsensus_expr_eq _ _⟩)
      | simp_all
  · intro path req hreq
    simp only [ListDir] at hreq
    repeat' split at hreq
    all_goals first
      | exact Except.noConfusion hreq
      | (injection hreq with h1; subst h1;
         exact ⟨consensus_expr_eq _ _, fullconsensus_expr_eq _ _⟩)
      | simp_all
  · intro decodedTicket lookupHash req hreq
    simp only [ListDirFromAuthTicket] at hreq
    repeat' split at hreq
    all_goals first
      | exact Except.noConfusion hreq
      | (injection hreq with h1; subst h1;
         exact ⟨consensus_expr_eq _ _, fullconsensus_expr_eq _ _⟩)
      | simp_all
  · intro path ref
    rcases ref with _ | r <;>
      exact ⟨consensus_expr_eq _ _, fullconsensus_expr_eq _ _⟩
  · intro decodedTicket lookupHash ref req hreq
    simp only [GetFileMetaFromAuthTicket] at hreq
    repeat' split at hreq
    all_goals first
      | exact Option.noConfusion hreq
      | (injection hreq with h1; subst h1;
         exact ⟨consensus_expr_eq _ _, fullconsensus_expr_eq _ _⟩)
      | simp_all
  · intro path req hreq
    simp only [GetFileStats] at hreq
    repeat' split at hreq
    all_goals first
      | exact Except.noConfusion hreq
      | (injection hreq with h1; subst h1;
         exact ⟨consensus_expr_eq _ _, fullconsensus_expr_eq _ _⟩)
      | simp_all
  · intro deleteOutcome path req hmem
    simp only [DeleteFile] at hmem
    repeat' split at hmem
    all_goals simp at hmem
    all_goals (subst hmem; refine ⟨?_, ?_⟩ <;> simp <;> try ring)
  · intro renameOutcome path destName req hmem
    simp only [RenameObject] at hmem
    repeat' split at hmem
    all_goals simp at hmem
    all_goals (subst hmem; refine ⟨?_, ?_⟩ <;> simp <;> try ring)
  · intro copyOutcome path destPath req hmem
    simp only [CopyObject] at hmem
    repeat' split at hmem
    all_goals simp at hmem
    all_goals (subst hmem; refine ⟨?_, ?_⟩ <;> simp <;> try ring)

/-- Witness for C2: the file-meta list request on the 4-blobber
allocation carries the claimed threshold. -/
theorem requests_carry_consensus_params_app :
    1 ≤ alloc4.DataShards
      ∧ (GetFileMeta alloc4 "/p" (some r0)).1.consensusThresh
          = 100 * (alloc4.DataShards : ℚ)
              / ((alloc4.DataShards : ℚ) + (alloc4.ParityShards : ℚ)) :=
  ⟨by decide,
   ((requests_carry_consensus_params cEnv alloc4 (by decide)).2.2.2.2.2.1
       "/p" (some r0)).1⟩

end Zbox
